import Mathlib

/-!
Shallow embedding of `src/handler.py`, the runpod WhisperX serverless
handler. External capabilities (base64 decoding, HTTP retrieval, the
whisperx model calls) are opaque collaborators; they are modelled by an
`Oracle` of functions that either return a value or raise a Python
exception. The handler itself is translated line by line; every
externally visible side effect (HTTP request, temporary-file creation or
deletion, model-stage invocation) is recorded in an effect trace so that
claims about "no model stage is invoked" or "the temporary file is
deleted" can be stated as properties of the trace.
-/

namespace WhisperxHandler

/-- A Python exception value: class name, `str(e)`, the `e.args` payload
rendered as strings, and the text that `traceback.format_tb` would
produce for it. -/
structure PyExn where
  name : String
  msg : String
  args : List String
  tb : String
  deriving DecidableEq, Repr

/-- An HTTP response as seen through `requests.get`: status code and body
bytes. -/
structure HttpResponse where
  status : Nat
  content : List Nat
  deriving DecidableEq, Repr

/-- Opaque handles for stage outputs: the orchestrator never inspects
them, it only threads them between capability calls. -/
abbrev Audio := Nat
abbrev TranscriptResult := Nat
abbrev AlignedResult := Nat
abbrev DiarizeSegments := Nat

/-- Behaviour of the external collaborators: each call either returns or
raises. The handler is a deterministic function of the event and this
oracle. -/
structure Oracle where
  b64decode : String → Except PyExn (List Nat)
  httpGet : String → HttpResponse
  load_model : String → Except PyExn Unit
  load_audio : String → Except PyExn Audio
  transcribe : Audio → String → List (String × String) → Except PyExn TranscriptResult
  load_align_model : String → Except PyExn Unit
  align : TranscriptResult → Audio → Except PyExn AlignedResult
  diarize : Audio → Option (Int × Int) → Except PyExn DiarizeSegments
  assign_word_speakers : DiarizeSegments → AlignedResult → Except PyExn AlignedResult

/-- One externally visible side effect of a handler run. -/
inductive Effect where
  | httpGet (url : String)
  | tempFileCreated (path : String) (content : List Nat)
  | fileDeleted (path : String)
  | loadModel (lang : String)
  | loadAudio (path : String)
  | transcribeCall (optionKeys : List String)
  | loadAlignModel (lang : String)
  | alignCall
  | diarizeCall (bounds : Option (Int × Int))
  | assignWordSpeakersCall
  deriving DecidableEq, Repr

/-- The `input` mapping of a job event (all fields optional, matching
`dict.get`). `transcribe_options` is a Python dict, modelled as an
association list in insertion order. -/
structure JobInput where
  audio_base_64 : Option String := none
  audio_url : Option String := none
  language_code : Option String := none
  diarize : Option Bool := none
  min_speakers : Option Int := none
  max_speakers : Option Int := none
  transcribe_options : List (String × String) := []
  deriving DecidableEq, Repr

/-- The event mapping passed by the harness; `input` may be absent, in
which case `event['input']` raises `KeyError`. -/
structure Event where
  input : Option JobInput
  deriving DecidableEq, Repr

/-- What the handler run looks like to the harness: a returned value, or
an exception that escaped the handler. -/
inductive JobValue where
  | str (s : String)
  | result (r : AlignedResult)
  deriving DecidableEq, Repr

inductive Outcome where
  | value (v : JobValue)
  | raised (e : PyExn)
  deriving DecidableEq, Repr

/-- Python truthiness of an optional string: `None` and `""` are falsy. -/
def truthyStr : Option String → Bool
  | none => false
  | some s => !s.isEmpty

/-- Prefix test on character lists. -/
def listStartsWith : List Char → List Char → Bool
  | [], _ => true
  | _ :: _, [] => false
  | p :: ps, c :: cs => p == c && listStartsWith ps cs

/-- Python `str.startswith`: does `s` start with `p`? -/
def strStartsWith (s p : String) : Bool := listStartsWith p.data s.data

/-- Path of the n-th temporary file handed out by
`tempfile.NamedTemporaryFile(delete=False, suffix=".mp3")`. -/
def tempPath (n : Nat) : String := "tmp" ++ toString n ++ ".mp3"

/-- The `KeyError` raised by `event['input']` when the key is absent. -/
def keyErrorInput : PyExn :=
  { name := "KeyError", msg := "input", args := ["input"], tb := "handler line 64" }

/-- The bare `Exception("Failed to download file from URL")` raised by
`download_file` on a non-200 status. -/
def fetchError : PyExn :=
  { name := "Exception"
    msg := "Failed to download file from URL"
    args := ["Failed to download file from URL"]
    tb := "download_file line 37" }

/-- Keyword arguments that `handler` passes explicitly to
`model.transcribe` alongside `**transcribe_options`. -/
def reservedTranscribeKeys : List String := ["batch_size", "language", "print_progress"]

/-- First key of `transcribe_options` that collides with an explicit
keyword argument of the `model.transcribe` call. -/
def duplicateKwarg (opts : List (String × String)) : Option String :=
  (opts.find? fun kv => reservedTranscribeKeys.contains kv.1).map Prod.fst

/-- The `TypeError` Python raises at the call site when `**kwargs`
duplicates an explicit keyword argument. -/
def typeErrorDup (k : String) : PyExn :=
  { name := "TypeError"
    msg := "transcribe() got multiple values for keyword argument " ++ k
    args := ["transcribe() got multiple values for keyword argument " ++ k]
    tb := "handler line 88" }

/-- Python `repr` of the `e.args` tuple, with the strings unquoted. -/
def argsRepr : List String → String
  | [] => "()"
  | [a] => "(" ++ a ++ ",)"
  | as => "(" ++ String.intercalate ", " as ++ ")"

/-- The f-string built by the `except` clause at line 109. -/
def fmtError (e : PyExn) : String :=
  "Error transcribing audio: " ++ e.msg ++ ", Args: " ++ argsRepr e.args
    ++ ", Traceback: " ++ e.tb

/-- `base64_to_tempfile` (lines 16-29): decode, then write the bytes to a
fresh `delete=False` temporary file and return its path. Returns the
result, the effects performed, and the next temp-file counter. -/
def base64_to_tempfile (o : Oracle) (cnt : Nat) (base64_data : String) :
    Except PyExn String × List Effect × Nat :=
  match o.b64decode base64_data with
  | .error e => (.error e, [], cnt)
  | .ok audio_data =>
      (.ok (tempPath cnt), [Effect.tempFileCreated (tempPath cnt) audio_data], cnt + 1)

/-- `download_file` (lines 31-42): GET the URL, raise on status ≠ 200,
otherwise write the body to a fresh `delete=False` temporary file. -/
def download_file (o : Oracle) (cnt : Nat) (url : String) :
    Except PyExn String × List Effect × Nat :=
  let response := o.httpGet url
  if response.status ≠ 200 then
    (.error fetchError, [Effect.httpGet url], cnt)
  else
    (.ok (tempPath cnt),
      [Effect.httpGet url, Effect.tempFileCreated (tempPath cnt) response.content],
      cnt + 1)

/-- Outcome of the audio-source dispatch at lines 65-74. -/
inductive ResolveResult where
  | missing
  | failed (e : PyExn) (t : List Effect)
  | ok (path : String) (t : List Effect)
  deriving DecidableEq, Repr

/-- Lines 65-74: pick the audio source. Base64 wins when truthy; else a
URL that starts with "http" is downloaded; else the missing-input
condition. Exceptions from either helper propagate (`failed`): this part
is outside the `try` block. -/
def resolveAudio (o : Oracle) (ji : JobInput) : ResolveResult :=
  if truthyStr ji.audio_base_64 then
    match base64_to_tempfile o 0 (ji.audio_base_64.getD "") with
    | (.error e, t, _) => .failed e t
    | (.ok path, t, _) => .ok path t
  else if truthyStr ji.audio_url && strStartsWith (ji.audio_url.getD "") "http" then
    match download_file o 0 (ji.audio_url.getD "") with
    | (.error e, t, _) => .failed e t
    | (.ok path, t, _) => .ok path t
  else
    .missing

/-- Speaker bounds passed to the diarization pipeline (lines 98-101):
both or nothing. -/
def diarizeBounds (ji : JobInput) : Option (Int × Int) :=
  match ji.min_speakers, ji.max_speakers with
  | some mn, some mx => some (mn, mx)
  | _, _ => none

/-- The body of the `try` block (lines 82-107): transcription, alignment
and optional diarization, each via the oracle; the first exception
short-circuits. Returns the result (or the exception) together with the
stage effects in execution order. -/
def tryBody (o : Oracle) (ji : JobInput) (lang : String) (audioPath : String) :
    Except PyExn AlignedResult × List Effect :=
  let t1 := [Effect.loadModel lang]
  match o.load_model lang with
  | .error e => (.error e, t1)
  | .ok _ =>
  let t2 := t1 ++ [Effect.loadAudio audioPath]
  match o.load_audio audioPath with
  | .error e => (.error e, t2)
  | .ok audio =>
  match duplicateKwarg ji.transcribe_options with
  | some k => (.error (typeErrorDup k), t2)
  | none =>
  let t3 := t2 ++ [Effect.transcribeCall (ji.transcribe_options.map Prod.fst)]
  match o.transcribe audio lang ji.transcribe_options with
  | .error e => (.error e, t3)
  | .ok transcribed =>
  let t4 := t3 ++ [Effect.loadAlignModel lang]
  match o.load_align_model lang with
  | .error e => (.error e, t4)
  | .ok _ =>
  let t5 := t4 ++ [Effect.alignCall]
  match o.align transcribed audio with
  | .error e => (.error e, t5)
  | .ok aligned =>
  if ji.diarize.getD false then
    let t6 := t5 ++ [Effect.diarizeCall (diarizeBounds ji)]
    match o.diarize audio (diarizeBounds ji) with
    | .error e => (.error e, t6)
    | .ok segs =>
    let t7 := t6 ++ [Effect.assignWordSpeakersCall]
    match o.assign_word_speakers segs aligned with
    | .error e => (.error e, t7)
    | .ok final => (.ok final, t7)
  else
    (.ok aligned, t5)

/-- The `try`/`except` boundary (lines 82-109): a stage exception becomes
the formatted error string; a success is returned as the result value. -/
def stagesAndWrap (o : Oracle) (ji : JobInput) (path : String) (t : List Effect) :
    Outcome × List Effect :=
  let lang := ji.language_code.getD "pl"
  match tryBody o ji lang path with
  | (.ok r, effs) => (.value (JobValue.result r), t ++ effs)
  | (.error e, effs) => (.value (JobValue.str (fmtError e)), t ++ effs)

/-- `handler` (lines 44-109). `event['input']` raises `KeyError` when
absent; input resolution happens before the `try` block, so its
exceptions escape the handler; the missing-input case returns the
literal string. -/
def handler (o : Oracle) (event : Event) : Outcome × List Effect :=
  match event.input with
  | none => (.raised keyErrorInput, [])
  | some ji =>
    match resolveAudio o ji with
    | .missing => (.value (JobValue.str "No audio input provided"), [])
    | .failed e t => (.raised e, t)
    | .ok path t => stagesAndWrap o ji path t

/-- Whether an effect is an invocation of a model stage (loading or
calling the transcription, alignment or diarization capabilities). -/
def isModelEffect : Effect → Bool
  | .loadModel _ => true
  | .loadAudio _ => true
  | .transcribeCall _ => true
  | .loadAlignModel _ => true
  | .alignCall => true
  | .diarizeCall _ => true
  | .assignWordSpeakersCall => true
  | _ => false

def isFileDeleted : Effect → Bool
  | .fileDeleted _ => true
  | _ => false

def isTempFileCreated : Effect → Bool
  | .tempFileCreated _ _ => true
  | _ => false

def isHttpGet : Effect → Bool
  | .httpGet _ => true
  | _ => false

def isDiarizeCall : Effect → Bool
  | .diarizeCall _ => true
  | _ => false

/-- A returned Job Error string, as produced by the `except` clause. -/
def isJobErrorString : Outcome → Bool
  | .value (JobValue.str s) => strStartsWith s "Error transcribing audio"
  | _ => false

/-! Concrete oracles used to instantiate theorems on concrete runs. -/

/-- An oracle on which every external call succeeds. -/
def okOracle : Oracle where
  b64decode _ := .ok [1, 2, 3]
  httpGet _ := { status := 200, content := [4, 5] }
  load_model _ := .ok ()
  load_audio _ := .ok 7
  transcribe _ _ _ := .ok 11
  load_align_model _ := .ok ()
  align _ _ := .ok 13
  diarize _ _ := .ok 17
  assign_word_speakers _ _ := .ok 19

/-- The `binascii.Error` that `base64.b64decode` raises on bad padding. -/
def decodeErr : PyExn :=
  { name := "binascii.Error", msg := "Incorrect padding"
    args := ["Incorrect padding"], tb := "base64 b64decode" }

/-- A typical capability failure inside a model stage. -/
def stageExn : PyExn :=
  { name := "RuntimeError", msg := "CUDA out of memory"
    args := ["CUDA out of memory"], tb := "whisperx transcribe" }

/-- Oracle whose base64 decoding raises (malformed input such as "AAA"). -/
def decodeFailOracle : Oracle :=
  { okOracle with b64decode := fun _ => .error decodeErr }

/-- Oracle whose HTTP responses carry the given status code. -/
def statusOracle (s : Nat) : Oracle :=
  { okOracle with httpGet := fun _ => { status := s, content := [9] } }

/-- Oracle whose transcription capability raises. -/
def transcribeFailOracle : Oracle :=
  { okOracle with transcribe := fun _ _ _ => .error stageExn }

/-! Structural lemmas about the traces each piece of the handler can
produce. -/

/-- The effect trace carried by a `ResolveResult`. -/
def ResolveResult.trace : ResolveResult → List Effect
  | .missing => []
  | .failed _ t => t
  | .ok _ t => t

lemma base64_to_tempfile_trace (o : Oracle) (cnt : Nat) (s : String) :
    ∀ e ∈ (base64_to_tempfile o cnt s).2.1, isTempFileCreated e = true := by
  intro e he
  unfold base64_to_tempfile at he
  cases h : o.b64decode s <;> rw [h] at he <;>
    simp_all [isTempFileCreated]

lemma download_file_trace (o : Oracle) (cnt : Nat) (u : String) :
    ∀ e ∈ (download_file o cnt u).2.1,
      isHttpGet e = true ∨ isTempFileCreated e = true := by
  intro e he
  simp only [download_file] at he
  split at he
  · simp at he
    exact Or.inl (by rw [he]; rfl)
  · simp at he
    rcases he with he | he
    · exact Or.inl (by rw [he]; rfl)
    · exact Or.inr (by rw [he]; rfl)

lemma resolveAudio_trace_shape (o : Oracle) (ji : JobInput) :
    ∀ e ∈ (resolveAudio o ji).trace,
      isHttpGet e = true ∨ isTempFileCreated e = true := by
  intro e he
  unfold resolveAudio at he
  split at he
  · rcases hbt : base64_to_tempfile o 0 (ji.audio_base_64.getD "") with ⟨r, t, c⟩
    rw [hbt] at he
    have hmem : e ∈ t → isTempFileCreated e = true := fun h =>
      base64_to_tempfile_trace o 0 (ji.audio_base_64.getD "") e (by rw [hbt]; exact h)
    cases r <;> simp [ResolveResult.trace] at he <;> exact Or.inr (hmem he)
  · split at he
    · rcases hdl : download_file o 0 (ji.audio_url.getD "") with ⟨r, t, c⟩
      rw [hdl] at he
      have hmem : e ∈ t → isHttpGet e = true ∨ isTempFileCreated e = true := fun h =>
        download_file_trace o 0 (ji.audio_url.getD "") e (by rw [hdl]; exact h)
      cases r <;> simp [ResolveResult.trace] at he <;> exact hmem he
    · simp [ResolveResult.trace] at he

lemma tryBody_trace_shape (o : Oracle) (ji : JobInput) (lang path : String) :
    ∀ e ∈ (tryBody o ji lang path).2, isModelEffect e = true := by
  intro e he
  unfold tryBody at he
  repeat' split at he
  all_goals simp at he
  all_goals first
    | (rw [he]; rfl)
    | (rcases he with he | he | he | he | he | he | he <;> rw [he] <;> rfl)
    | (rcases he with he | he | he | he | he | he <;> rw [he] <;> rfl)
    | (rcases he with he | he | he | he | he <;> rw [he] <;> rfl)
    | (rcases he with he | he | he | he <;> rw [he] <;> rfl)
    | (rcases he with he | he | he <;> rw [he] <;> rfl)
    | (rcases he with he | he <;> rw [he] <;> rfl)

lemma stagesAndWrap_trace (o : Oracle) (ji : JobInput) (path : String)
    (t : List Effect) :
    (stagesAndWrap o ji path t).2
      = t ++ (tryBody o ji (ji.language_code.getD "pl") path).2 := by
  unfold stagesAndWrap
  rcases h : tryBody o ji (ji.language_code.getD "pl") path with ⟨r | e, effs⟩ <;>
    simp [h]

lemma handler_some_eq (o : Oracle) (ji : JobInput) :
    handler o { input := some ji }
      = (match resolveAudio o ji with
        | .missing => (.value (JobValue.str "No audio input provided"), [])
        | .failed e t => (.raised e, t)
        | .ok path t => stagesAndWrap o ji path t) := rfl

lemma handler_of_resolve_ok (o : Oracle) (ji : JobInput) (path : String)
    (t : List Effect) (h : resolveAudio o ji = .ok path t) :
    handler o { input := some ji } = stagesAndWrap o ji path t := by
  rw [handler_some_eq, h]

/-! ### C10 -/

/-- C10: an event mapping without the "input" key makes the handler raise
an uncaught `KeyError` immediately: no input resolution, no stage, no
effect at all, and no structured error value. -/
theorem missing_input_key_raises (o : Oracle) :
    handler o { input := none } = (.raised keyErrorInput, []) := rfl

/-! ### C2 -/

/-- The remote-address field is a string starting with an HTTP-like
scheme. -/
def urlLooksHttp (ji : JobInput) : Bool :=
  match ji.audio_url with
  | some u => strStartsWith u "http"
  | none => false

/-- C2: with no truthy inline audio and no HTTP-looking URL, the handler
returns the literal string "No audio input provided" with an empty
effect trace, so no model stage is invoked. -/
theorem missing_input_literal (o : Oracle) (ji : JobInput)
    (hb : truthyStr ji.audio_base_64 = false)
    (hu : urlLooksHttp ji = false) :
    handler o { input := some ji }
      = (.value (JobValue.str "No audio input provided"), [])
    ∧ (((handler o { input := some ji }).2.all fun e => !isModelEffect e) = true) := by
  have hres : resolveAudio o ji = .missing := by
    unfold resolveAudio
    rw [hb]
    have hand : (truthyStr ji.audio_url && strStartsWith (ji.audio_url.getD "") "http")
        = false := by
      rcases h : ji.audio_url with _ | u
      · rfl
      · unfold urlLooksHttp at hu
        rw [h] at hu
        simp only [] at hu
        simp [truthyStr, hu]
    rw [hand]
    simp
  rw [handler_some_eq, hres]
  exact ⟨rfl, rfl⟩

theorem missing_input_literal_witness :
    handler okOracle { input := some {} }
      = (.value (JobValue.str "No audio input provided"), []) :=
  (missing_input_literal okOracle {} rfl rfl).1

lemma model_effect_facts (e : Effect) (h : isModelEffect e = true) :
    isFileDeleted e = false ∧ isHttpGet e = false ∧ isTempFileCreated e = false := by
  cases e <;> simp_all [isModelEffect, isFileDeleted, isHttpGet, isTempFileCreated]

lemma resolve_effect_facts (e : Effect)
    (h : isHttpGet e = true ∨ isTempFileCreated e = true) :
    isFileDeleted e = false ∧ isModelEffect e = false := by
  cases e <;> simp_all [isModelEffect, isFileDeleted, isHttpGet, isTempFileCreated]

/-! ### C9 -/

/-- C9: `download_file` raises exactly when the response status differs
from 200 — success statuses such as 201 or 206 also raise — and the
temporary file is written only in the status-200 case, where it holds
the response body. -/
theorem download_file_status_check (o : Oracle) (cnt : Nat) (url : String) :
    ((o.httpGet url).status ≠ 200 →
      download_file o cnt url = (.error fetchError, [Effect.httpGet url], cnt))
    ∧ ((o.httpGet url).status = 200 →
      download_file o cnt url =
        (.ok (tempPath cnt),
          [Effect.httpGet url,
           Effect.tempFileCreated (tempPath cnt) (o.httpGet url).content],
          cnt + 1)) := by
  constructor <;> intro h <;> simp [download_file, h]

theorem download_file_status_check_witness :
    download_file (statusOracle 201) 0 "http://host/a.mp3"
      = (.error fetchError, [Effect.httpGet "http://host/a.mp3"], 0) :=
  (download_file_status_check (statusOracle 201) 0 "http://host/a.mp3").1 (by decide)

/-! ### C3 -/

/-- C3 counterexample: a job that completes successfully (inline audio,
every stage succeeds) allocates a temporary file and performs no
deletion before returning, so the allocated file is not released. -/
theorem temp_file_not_deleted_cex :
    ((handler okOracle { input := some { audio_base_64 := some "AAAA" } }).2.any
        isTempFileCreated) = true
    ∧ ((handler okOracle { input := some { audio_base_64 := some "AAAA" } }).2.all
        fun e => !isFileDeleted e) = true
    ∧ (handler okOracle { input := some { audio_base_64 := some "AAAA" } }).1
        = .value (JobValue.result 13) :=
  ⟨rfl, rfl, rfl⟩

/-- C3 amended: the handler never deletes any file on any path — the
temporary audio file persists after the job instead of being released. -/
theorem handler_never_deletes_files (o : Oracle) (ev : Event) :
    ((handler o ev).2.all fun e => !isFileDeleted e) = true := by
  rw [List.all_eq_true]
  intro x hx
  rcases ev with ⟨_ | ji⟩
  · simp [handler] at hx
  · rw [handler_some_eq] at hx
    rcases hres : resolveAudio o ji with _ | ⟨e, t⟩ | ⟨path, t⟩ <;> rw [hres] at hx
    · simp at hx
    · have hf := resolve_effect_facts x
        (resolveAudio_trace_shape o ji x (by rw [hres]; exact hx))
      simp [hf.1]
    · change x ∈ (stagesAndWrap o ji path t).2 at hx
      rw [stagesAndWrap_trace] at hx
      rcases List.mem_append.mp hx with h | h
      · have hf := resolve_effect_facts x
          (resolveAudio_trace_shape o ji x (by rw [hres]; exact h))
        simp [hf.1]
      · have hf := model_effect_facts x
          (tryBody_trace_shape o ji (ji.language_code.getD "pl") path x h)
        simp [hf.1]

/-! Reduction lemmas for the input-resolution helpers. -/

lemma download_file_eq_fail (o : Oracle) (cnt : Nat) (url : String)
    (h : (o.httpGet url).status ≠ 200) :
    download_file o cnt url = (.error fetchError, [Effect.httpGet url], cnt) := by
  simp [download_file, h]

lemma download_file_eq_ok (o : Oracle) (cnt : Nat) (url : String)
    (h : (o.httpGet url).status = 200) :
    download_file o cnt url =
      (.ok (tempPath cnt),
        [Effect.httpGet url,
         Effect.tempFileCreated (tempPath cnt) (o.httpGet url).content],
        cnt + 1) := by
  simp [download_file, h]

lemma base64_to_tempfile_err (o : Oracle) (cnt : Nat) (s : String) (e : PyExn)
    (h : o.b64decode s = .error e) :
    base64_to_tempfile o cnt s = (.error e, [], cnt) := by
  simp [base64_to_tempfile, h]

lemma base64_to_tempfile_ok (o : Oracle) (cnt : Nat) (s : String) (bytes : List Nat)
    (h : o.b64decode s = .ok bytes) :
    base64_to_tempfile o cnt s =
      (.ok (tempPath cnt), [Effect.tempFileCreated (tempPath cnt) bytes], cnt + 1) := by
  simp [base64_to_tempfile, h]

lemma ne_empty_of_startsWith_http (u : String) (h : strStartsWith u "http" = true) :
    u.isEmpty = false := by
  cases hc : u.isEmpty
  · rfl
  · exfalso
    have hu : u = "" := (String.isEmpty_iff u).mp hc
    rw [hu] at h
    exact absurd h (by decide)

lemma resolveAudio_b64_err (o : Oracle) (ji : JobInput) (e : PyExn)
    (hb : truthyStr ji.audio_base_64 = true)
    (hd : o.b64decode (ji.audio_base_64.getD "") = .error e) :
    resolveAudio o ji = .failed e [] := by
  unfold resolveAudio
  rw [hb, base64_to_tempfile_err o 0 _ e hd]
  simp

lemma resolveAudio_b64_ok (o : Oracle) (ji : JobInput) (bytes : List Nat)
    (hb : truthyStr ji.audio_base_64 = true)
    (hd : o.b64decode (ji.audio_base_64.getD "") = .ok bytes) :
    resolveAudio o ji = .ok (tempPath 0) [Effect.tempFileCreated (tempPath 0) bytes] := by
  unfold resolveAudio
  rw [hb, base64_to_tempfile_ok o 0 _ bytes hd]
  simp

lemma resolveAudio_url_fail (o : Oracle) (ji : JobInput) (u : String)
    (hb : truthyStr ji.audio_base_64 = false)
    (hu : ji.audio_url = some u)
    (hhttp : strStartsWith u "http" = true)
    (hstat : (o.httpGet u).status ≠ 200) :
    resolveAudio o ji = .failed fetchError [Effect.httpGet u] := by
  have hne := ne_empty_of_startsWith_http u hhttp
  unfold resolveAudio
  rw [hb, hu]
  simp only [Option.getD_some]
  rw [download_file_eq_fail o 0 u hstat]
  simp [truthyStr, hne, hhttp]

lemma resolveAudio_url_ok (o : Oracle) (ji : JobInput) (u : String)
    (hb : truthyStr ji.audio_base_64 = false)
    (hu : ji.audio_url = some u)
    (hhttp : strStartsWith u "http" = true)
    (hstat : (o.httpGet u).status = 200) :
    resolveAudio o ji =
      .ok (tempPath 0)
        [Effect.httpGet u,
         Effect.tempFileCreated (tempPath 0) (o.httpGet u).content] := by
  have hne := ne_empty_of_startsWith_http u hhttp
  unfold resolveAudio
  rw [hb, hu]
  simp only [Option.getD_some]
  rw [download_file_eq_ok o 0 u hstat]
  simp [truthyStr, hne, hhttp]

/-! ### C4 -/

/-- C4: when the only audio source is an HTTP-looking URL and the remote
answers with a non-success status, the handler run ends with the raised
fetch failure: no audio handle is produced, no temporary file is
written, and no model stage is invoked. -/
theorem fetch_failure_no_stage (o : Oracle) (ji : JobInput) (u : String)
    (hb : truthyStr ji.audio_base_64 = false)
    (hu : ji.audio_url = some u)
    (hhttp : strStartsWith u "http" = true)
    (hstatus : ¬(200 ≤ (o.httpGet u).status ∧ (o.httpGet u).status < 300)) :
    handler o { input := some ji } = (.raised fetchError, [Effect.httpGet u])
    ∧ (((handler o { input := some ji }).2.all fun e => !isModelEffect e) = true)
    ∧ (((handler o { input := some ji }).2.all fun e => !isTempFileCreated e) = true) := by
  have hstat : (o.httpGet u).status ≠ 200 := by
    intro h
    exact hstatus ⟨le_of_eq h.symm, by omega⟩
  have hres := resolveAudio_url_fail o ji u hb hu hhttp hstat
  rw [handler_some_eq, hres]
  exact ⟨rfl, rfl, rfl⟩

theorem fetch_failure_no_stage_witness :
    handler (statusOracle 404) { input := some { audio_url := some "http://host/a.mp3" } }
      = (.raised fetchError, [Effect.httpGet "http://host/a.mp3"]) :=
  (fetch_failure_no_stage (statusOracle 404) { audio_url := some "http://host/a.mp3" }
    "http://host/a.mp3" rfl rfl (by decide) (by decide)).1

/-! ### C7 -/

/-- C7: when the inline-encoded audio field is truthy it is the
authoritative source: the URL is never fetched (no HTTP request in the
trace, whatever the other fields hold), and when decoding succeeds the
decoded bytes are persisted to the fresh temporary file whose path is
the audio input handed to the stages. -/
theorem base64_source_authoritative (o : Oracle) (ji : JobInput)
    (hb : truthyStr ji.audio_base_64 = true) :
    (((handler o { input := some ji }).2.all fun e => !isHttpGet e) = true)
    ∧ (∀ bytes, o.b64decode (ji.audio_base_64.getD "") = .ok bytes →
        Effect.tempFileCreated (tempPath 0) bytes ∈ (handler o { input := some ji }).2
        ∧ handler o { input := some ji }
            = stagesAndWrap o ji (tempPath 0)
                [Effect.tempFileCreated (tempPath 0) bytes]) := by
  constructor
  · rcases hd : o.b64decode (ji.audio_base_64.getD "") with e | bytes
    · rw [handler_some_eq, resolveAudio_b64_err o ji e hb hd]
      rfl
    · rw [handler_some_eq, resolveAudio_b64_ok o ji bytes hb hd]
      change ((stagesAndWrap o ji (tempPath 0) _).2.all fun e => !isHttpGet e) = true
      rw [List.all_eq_true]
      intro x hx
      rw [stagesAndWrap_trace] at hx
      rcases List.mem_append.mp hx with h | h
      · simp at h
        rw [h]
        rfl
      · have hf := model_effect_facts x
          (tryBody_trace_shape o ji (ji.language_code.getD "pl") (tempPath 0) x h)
        simp [hf.2.1]
  · intro bytes hd
    have hres := resolveAudio_b64_ok o ji bytes hb hd
    have heq := handler_of_resolve_ok o ji (tempPath 0) _ hres
    refine ⟨?_, heq⟩
    rw [heq, stagesAndWrap_trace]
    exact List.mem_append.mpr (Or.inl (List.mem_singleton.mpr rfl))

theorem base64_source_authoritative_witness :
    ((handler okOracle
        { input := some { audio_base_64 := some "AAAA",
                          audio_url := some "http://host/a.mp3" } }).2.all
      fun e => !isHttpGet e) = true
    ∧ Effect.tempFileCreated (tempPath 0) [1, 2, 3]
        ∈ (handler okOracle
            { input := some { audio_base_64 := some "AAAA",
                              audio_url := some "http://host/a.mp3" } }).2 :=
  ⟨(base64_source_authoritative okOracle
      { audio_base_64 := some "AAAA", audio_url := some "http://host/a.mp3" } rfl).1,
   ((base64_source_authoritative okOracle
      { audio_base_64 := some "AAAA", audio_url := some "http://host/a.mp3" } rfl).2
      [1, 2, 3] rfl).1⟩

/-! Reduction lemmas for the error boundary, and facts about the
formatted error string. -/

lemma stagesAndWrap_of_tryBody_ok (o : Oracle) (ji : JobInput) (path : String)
    (t : List Effect) (r : AlignedResult) (effs : List Effect)
    (h : tryBody o ji (ji.language_code.getD "pl") path = (.ok r, effs)) :
    stagesAndWrap o ji path t = (.value (JobValue.result r), t ++ effs) := by
  simp only [stagesAndWrap]
  rw [h]

lemma stagesAndWrap_of_tryBody_err (o : Oracle) (ji : JobInput) (path : String)
    (t : List Effect) (e : PyExn) (effs : List Effect)
    (h : tryBody o ji (ji.language_code.getD "pl") path = (.error e, effs)) :
    stagesAndWrap o ji path t = (.value (JobValue.str (fmtError e)), t ++ effs) := by
  simp only [stagesAndWrap]
  rw [h]

lemma fmtError_ne_empty (e : PyExn) : fmtError e ≠ "" := by
  have h1 : 26 ≤ (fmtError e).length := by
    rw [fmtError]
    simp only [String.length_append]
    have h26 : ("Error transcribing audio: ").length = 26 := rfl
    omega
  intro h
  rw [h] at h1
  exact absurd h1 (by decide)

lemma listStartsWith_append (p x y : List Char) (h : listStartsWith p x = true) :
    listStartsWith p (x ++ y) = true := by
  induction p generalizing x with
  | nil => rfl
  | cons a ps ih =>
    cases x with
    | nil => simp [listStartsWith] at h
    | cons c cs =>
      simp only [listStartsWith, List.cons_append, Bool.and_eq_true] at h ⊢
      exact ⟨h.1, ih cs h.2⟩

lemma strStartsWith_append (a b p : String) (h : strStartsWith a p = true) :
    strStartsWith (a ++ b) p = true := by
  unfold strStartsWith at h ⊢
  rw [String.data_append]
  exact listStartsWith_append _ _ _ h

lemma isJobErrorString_fmt (e : PyExn) :
    isJobErrorString (.value (JobValue.str (fmtError e))) = true := by
  unfold isJobErrorString fmtError
  have h0 : strStartsWith "Error transcribing audio: " "Error transcribing audio"
      = true := by decide
  exact strStartsWith_append _ e.tb _
    (strStartsWith_append _ ", Traceback: " _
      (strStartsWith_append _ (argsRepr e.args) _
        (strStartsWith_append _ ", Args: " _
          (strStartsWith_append _ e.msg _ h0))))

/-! ### C1 -/

/-- C1 counterexample: a base64 decoding failure during input resolution
(for instance `audio_base_64 = "AAA"`, whose padding is invalid, makes
`base64.b64decode` raise `binascii.Error`) escapes the handler as a
raised exception instead of being returned as a Job Error value: the
`try` boundary only starts after input resolution. -/
theorem resolution_exception_escapes :
    handler decodeFailOracle { input := some { audio_base_64 := some "AAA" } }
      = (.raised decodeErr, []) := rfl

/-- C1 corrected: every exception raised inside the `try` boundary
(model loading, audio loading, transcription, alignment, diarization,
speaker assignment) is returned as the formatted Job Error string, which
is non-empty and embeds the message, argument payload and traceback; and
once input resolution has succeeded, no exception ever escapes the
handler. Exceptions raised during input resolution itself (decode or
fetch failures) do escape uncaught. -/
theorem stage_exceptions_wrapped :
    (∀ (o : Oracle) (ji : JobInput) (path : String) (t effs : List Effect) (e : PyExn),
      resolveAudio o ji = .ok path t →
      tryBody o ji (ji.language_code.getD "pl") path = (.error e, effs) →
      (handler o { input := some ji }).1 = .value (JobValue.str (fmtError e))
        ∧ fmtError e ≠ "")
    ∧ (∀ (o : Oracle) (ji : JobInput) (path : String) (t : List Effect) (e : PyExn),
      resolveAudio o ji = .ok path t →
      (handler o { input := some ji }).1 ≠ .raised e) := by
  constructor
  · intro o ji path t effs e hres htry
    rw [handler_of_resolve_ok o ji path t hres,
      stagesAndWrap_of_tryBody_err o ji path t e effs htry]
    exact ⟨rfl, fmtError_ne_empty e⟩
  · intro o ji path t e hres
    rw [handler_of_resolve_ok o ji path t hres]
    rcases h : tryBody o ji (ji.language_code.getD "pl") path with ⟨e2 | r, effs⟩
    · rw [stagesAndWrap_of_tryBody_err o ji path t e2 effs h]
      simp
    · rw [stagesAndWrap_of_tryBody_ok o ji path t r effs h]
      simp

theorem stage_exceptions_wrapped_witness :
    (handler transcribeFailOracle { input := some { audio_base_64 := some "AAAA" } }).1
      = .value (JobValue.str (fmtError stageExn))
    ∧ fmtError stageExn ≠ "" :=
  stage_exceptions_wrapped.1 transcribeFailOracle { audio_base_64 := some "AAAA" }
    (tempPath 0) [Effect.tempFileCreated (tempPath 0) [1, 2, 3]]
    [Effect.loadModel "pl", Effect.loadAudio (tempPath 0), Effect.transcribeCall []]
    stageExn rfl rfl

/-! Reduction lemmas for the stage sequence on success paths. -/

/-- Effects of the stages up to and including alignment. -/
def preTrace (ji : JobInput) (lang path : String) : List Effect :=
  [Effect.loadModel lang, Effect.loadAudio path,
   Effect.transcribeCall (ji.transcribe_options.map Prod.fst),
   Effect.loadAlignModel lang, Effect.alignCall]

lemma tryBody_reach_align (o : Oracle) (ji : JobInput) (lang path : String)
    (au tr al : Nat)
    (hm : o.load_model lang = .ok ())
    (ha : o.load_audio path = .ok au)
    (hd : duplicateKwarg ji.transcribe_options = none)
    (ht : o.transcribe au lang ji.transcribe_options = .ok tr)
    (ham : o.load_align_model lang = .ok ())
    (hal : o.align tr au = .ok al) :
    tryBody o ji lang path =
      if ji.diarize.getD false then
        match o.diarize au (diarizeBounds ji) with
        | .error e =>
            (.error e, preTrace ji lang path ++ [Effect.diarizeCall (diarizeBounds ji)])
        | .ok segs =>
            match o.assign_word_speakers segs al with
            | .error e2 =>
                (.error e2, preTrace ji lang path
                  ++ [Effect.diarizeCall (diarizeBounds ji), Effect.assignWordSpeakersCall])
            | .ok final =>
                (.ok final, preTrace ji lang path
                  ++ [Effect.diarizeCall (diarizeBounds ji), Effect.assignWordSpeakersCall])
      else
        (.ok al, preTrace ji lang path) := by
  simp only [tryBody, hm, ha, hd, ht, ham, hal, preTrace]
  rfl

lemma tryBody_success_no_diarize (o : Oracle) (ji : JobInput) (lang path : String)
    (au tr al : Nat)
    (hm : o.load_model lang = .ok ())
    (ha : o.load_audio path = .ok au)
    (hd : duplicateKwarg ji.transcribe_options = none)
    (ht : o.transcribe au lang ji.transcribe_options = .ok tr)
    (ham : o.load_align_model lang = .ok ())
    (hal : o.align tr au = .ok al)
    (hflag : ji.diarize.getD false = false) :
    tryBody o ji lang path = (.ok al, preTrace ji lang path) := by
  rw [tryBody_reach_align o ji lang path au tr al hm ha hd ht ham hal, hflag]
  rfl

lemma tryBody_diarize_effect (o : Oracle) (ji : JobInput) (lang path : String)
    (au tr al : Nat)
    (hm : o.load_model lang = .ok ())
    (ha : o.load_audio path = .ok au)
    (hd : duplicateKwarg ji.transcribe_options = none)
    (ht : o.transcribe au lang ji.transcribe_options = .ok tr)
    (ham : o.load_align_model lang = .ok ())
    (hal : o.align tr au = .ok al)
    (hflag : ji.diarize.getD false = true) :
    Effect.diarizeCall (diarizeBounds ji) ∈ (tryBody o ji lang path).2 := by
  rw [tryBody_reach_align o ji lang path au tr al hm ha hd ht ham hal, hflag]
  simp only [if_true]
  repeat' split
  all_goals simp

lemma tryBody_no_diarizeCall (o : Oracle) (ji : JobInput) (lang path : String)
    (hflag : ji.diarize.getD false = false) :
    ∀ b, Effect.diarizeCall b ∉ (tryBody o ji lang path).2 := by
  intro b hb
  unfold tryBody at hb
  repeat' split at hb
  all_goals simp_all

/-- Whether the event enables diarization: the `diarize` field, absent
defaulting to false (and false when the input mapping is missing, in
which case no stage runs at all). -/
def eventDiarizeFlag (ev : Event) : Bool :=
  match ev.input with
  | some ji => ji.diarize.getD false
  | none => false

lemma resolve_no_diarizeCall (o : Oracle) (ji : JobInput) (b : Option (Int × Int))
    (h : Effect.diarizeCall b ∈ (resolveAudio o ji).trace) : False := by
  rcases resolveAudio_trace_shape o ji _ h with h1 | h1 <;>
    simp [isHttpGet, isTempFileCreated] at h1

/-! ### C6 -/

/-- C6: the diarization capability is invoked only when the effective
diarize flag (absent defaulting to false) is true; and on a run whose
stages up to alignment succeed, a true flag does invoke it while a false
flag skips it and returns the aligned result unchanged. -/
theorem diarize_flag_gates_stage :
    (∀ (o : Oracle) (ev : Event) (b : Option (Int × Int)),
      Effect.diarizeCall b ∈ (handler o ev).2 → eventDiarizeFlag ev = true)
    ∧ (∀ (o : Oracle) (ji : JobInput) (path : String) (t : List Effect)
        (au tr al : Nat),
      resolveAudio o ji = .ok path t →
      o.load_model (ji.language_code.getD "pl") = .ok () →
      o.load_audio path = .ok au →
      duplicateKwarg ji.transcribe_options = none →
      o.transcribe au (ji.language_code.getD "pl") ji.transcribe_options = .ok tr →
      o.load_align_model (ji.language_code.getD "pl") = .ok () →
      o.align tr au = .ok al →
      ((ji.diarize.getD false = true →
          Effect.diarizeCall (diarizeBounds ji) ∈ (handler o { input := some ji }).2)
        ∧ (ji.diarize.getD false = false →
          (handler o { input := some ji }).1 = .value (JobValue.result al)
          ∧ ∀ b, Effect.diarizeCall b ∉ (handler o { input := some ji }).2))) := by
  constructor
  · intro o ev b hmem
    rcases ev with ⟨_ | ji⟩
    · simp [handler] at hmem
    · rw [handler_some_eq] at hmem
      rcases hres : resolveAudio o ji with _ | ⟨e, t⟩ | ⟨path, t⟩ <;> rw [hres] at hmem
      · simp at hmem
      · exact (resolve_no_diarizeCall o ji b (by rw [hres]; exact hmem)).elim
      · change Effect.diarizeCall b ∈ (stagesAndWrap o ji path t).2 at hmem
        rw [stagesAndWrap_trace] at hmem
        rcases List.mem_append.mp hmem with h | h
        · exact (resolve_no_diarizeCall o ji b (by rw [hres]; exact h)).elim
        · cases hf : ji.diarize.getD false
          · exact absurd h
              (tryBody_no_diarizeCall o ji (ji.language_code.getD "pl") path hf b)
          · simp [eventDiarizeFlag, hf]
  · intro o ji path t au tr al hres hm ha hd ht ham hal
    have heq := handler_of_resolve_ok o ji path t hres
    constructor
    · intro hflag
      rw [heq, stagesAndWrap_trace]
      exact List.mem_append.mpr (Or.inr
        (tryBody_diarize_effect o ji (ji.language_code.getD "pl") path au tr al
          hm ha hd ht ham hal hflag))
    · intro hflag
      have hok := tryBody_success_no_diarize o ji (ji.language_code.getD "pl") path
        au tr al hm ha hd ht ham hal hflag
      constructor
      · rw [heq, stagesAndWrap_of_tryBody_ok o ji path t al _ hok]
      · intro b hb
        rw [heq, stagesAndWrap_trace] at hb
        rcases List.mem_append.mp hb with h | h
        · exact resolve_no_diarizeCall o ji b (by rw [hres]; exact h)
        · exact tryBody_no_diarizeCall o ji (ji.language_code.getD "pl") path hflag b h

theorem diarize_flag_gates_stage_witness :
    ((handler okOracle { input := some { audio_base_64 := some "AAAA" } }).1
        = .value (JobValue.result 13)
      ∧ ∀ b, Effect.diarizeCall b
          ∉ (handler okOracle { input := some { audio_base_64 := some "AAAA" } }).2)
    ∧ Effect.diarizeCall
        (diarizeBounds { audio_base_64 := some "AAAA", diarize := some true })
        ∈ (handler okOracle
            { input := some { audio_base_64 := some "AAAA", diarize := some true } }).2 :=
  ⟨(diarize_flag_gates_stage.2 okOracle { audio_base_64 := some "AAAA" }
      (tempPath 0) [Effect.tempFileCreated (tempPath 0) [1, 2, 3]] 7 11 13
      rfl rfl rfl rfl rfl rfl rfl).2 rfl,
   (diarize_flag_gates_stage.2 okOracle { audio_base_64 := some "AAAA", diarize := some true }
      (tempPath 0) [Effect.tempFileCreated (tempPath 0) [1, 2, 3]] 7 11 13
      rfl rfl rfl rfl rfl rfl rfl).1 rfl⟩

/-! ### C5 -/

/-- C5: on a diarizing run that reaches the diarization stage, the
capability is called with both bounds when `min_speakers` and
`max_speakers` are both set, and with no bounds at all when at least one
of them is missing — supplying exactly one bound behaves as if neither
were supplied. -/
theorem diarize_bounds_gating (o : Oracle) (ji : JobInput) (path : String)
    (t : List Effect) (au tr al : Nat)
    (hres : resolveAudio o ji = .ok path t)
    (hm : o.load_model (ji.language_code.getD "pl") = .ok ())
    (ha : o.load_audio path = .ok au)
    (hd : duplicateKwarg ji.transcribe_options = none)
    (ht : o.transcribe au (ji.language_code.getD "pl") ji.transcribe_options = .ok tr)
    (ham : o.load_align_model (ji.language_code.getD "pl") = .ok ())
    (hal : o.align tr au = .ok al)
    (hflag : ji.diarize.getD false = true) :
    (∀ mn mx, ji.min_speakers = some mn → ji.max_speakers = some mx →
      Effect.diarizeCall (some (mn, mx)) ∈ (handler o { input := some ji }).2)
    ∧ ((ji.min_speakers = none ∨ ji.max_speakers = none) →
      Effect.diarizeCall none ∈ (handler o { input := some ji }).2) := by
  have hmem : Effect.diarizeCall (diarizeBounds ji)
      ∈ (handler o { input := some ji }).2 := by
    rw [handler_of_resolve_ok o ji path t hres, stagesAndWrap_trace]
    exact List.mem_append.mpr (Or.inr
      (tryBody_diarize_effect o ji (ji.language_code.getD "pl") path au tr al
        hm ha hd ht ham hal hflag))
  constructor
  · intro mn mx h1 h2
    have hbnd : diarizeBounds ji = some (mn, mx) := by
      unfold diarizeBounds
      rw [h1, h2]
    rw [hbnd] at hmem
    exact hmem
  · intro h
    have hbnd : diarizeBounds ji = none := by
      unfold diarizeBounds
      rcases h with h | h
      · rw [h]
      · rw [h]
        cases ji.min_speakers <;> rfl
    rw [hbnd] at hmem
    exact hmem

theorem diarize_bounds_gating_witness :
    Effect.diarizeCall (some (2, 4))
        ∈ (handler okOracle
            { input := some { audio_base_64 := some "AAAA", diarize := some true,
                              min_speakers := some 2, max_speakers := some 4 } }).2
    ∧ Effect.diarizeCall none
        ∈ (handler okOracle
            { input := some { audio_base_64 := some "AAAA", diarize := some true,
                              min_speakers := some 2 } }).2 :=
  ⟨(diarize_bounds_gating okOracle
      { audio_base_64 := some "AAAA", diarize := some true,
        min_speakers := some 2, max_speakers := some 4 }
      (tempPath 0) [Effect.tempFileCreated (tempPath 0) [1, 2, 3]] 7 11 13
      rfl rfl rfl rfl rfl rfl rfl rfl).1 2 4 rfl rfl,
   (diarize_bounds_gating okOracle
      { audio_base_64 := some "AAAA", diarize := some true, min_speakers := some 2 }
      (tempPath 0) [Effect.tempFileCreated (tempPath 0) [1, 2, 3]] 7 11 13
      rfl rfl rfl rfl rfl rfl rfl rfl).2 (Or.inr rfl)⟩

/-! ### C8 -/

lemma tryBody_dup (o : Oracle) (ji : JobInput) (lang path : String) (au : Nat)
    (k : String)
    (hm : o.load_model lang = .ok ())
    (ha : o.load_audio path = .ok au)
    (hdup : duplicateKwarg ji.transcribe_options = some k) :
    tryBody o ji lang path =
      (.error (typeErrorDup k), [Effect.loadModel lang, Effect.loadAudio path]) := by
  simp only [tryBody, hm, ha, hdup]
  rfl

/-- C8: when `transcribe_options` holds one of the reserved keys
("batch_size", "language", "print_progress"), the `model.transcribe`
call raises the duplicate-keyword `TypeError` before the capability is
ever entered, and the handler returns the formatted Job Error string
instead of a Pipeline Result — the verbatim pass-through does not hold
for these keys. -/
theorem reserved_transcribe_keys_error (o : Oracle) (ji : JobInput)
    (bytes : List Nat) (au : Nat)
    (hb : truthyStr ji.audio_base_64 = true)
    (hdec : o.b64decode (ji.audio_base_64.getD "") = .ok bytes)
    (hm : o.load_model (ji.language_code.getD "pl") = .ok ())
    (ha : o.load_audio (tempPath 0) = .ok au)
    (hkey : (ji.transcribe_options.any
        fun kv => reservedTranscribeKeys.contains kv.1) = true) :
    ∃ k, duplicateKwarg ji.transcribe_options = some k
      ∧ (handler o { input := some ji }).1
          = .value (JobValue.str (fmtError (typeErrorDup k)))
      ∧ isJobErrorString (handler o { input := some ji }).1 = true
      ∧ ∀ keys, Effect.transcribeCall keys ∉ (handler o { input := some ji }).2 := by
  rcases hf : ji.transcribe_options.find?
      (fun kv => reservedTranscribeKeys.contains kv.1) with _ | kv
  · exfalso
    rcases List.any_eq_true.mp hkey with ⟨x, hx, hpx⟩
    exact absurd hpx (by simpa using List.find?_eq_none.mp hf x hx)
  · have hdup : duplicateKwarg ji.transcribe_options = some kv.1 := by
      unfold duplicateKwarg
      rw [hf]
      rfl
    have hres := resolveAudio_b64_ok o ji bytes hb hdec
    have htb := tryBody_dup o ji (ji.language_code.getD "pl") (tempPath 0) au kv.1
      hm ha hdup
    have heq := handler_of_resolve_ok o ji (tempPath 0) _ hres
    refine ⟨kv.1, hdup, ?_, ?_, ?_⟩
    · rw [heq, stagesAndWrap_of_tryBody_err o ji (tempPath 0) _ _ _ htb]
    · rw [heq, stagesAndWrap_of_tryBody_err o ji (tempPath 0) _ _ _ htb]
      exact isJobErrorString_fmt _
    · intro keys hmem
      rw [heq, stagesAndWrap_trace, htb] at hmem
      simp at hmem

theorem reserved_transcribe_keys_error_witness :
    ∃ k, duplicateKwarg
        (JobInput.transcribe_options
          { audio_base_64 := some "AAAA", transcribe_options := [("language", "en")] })
        = some k
      ∧ (handler okOracle
          { input := some { audio_base_64 := some "AAAA",
                            transcribe_options := [("language", "en")] } }).1
          = .value (JobValue.str (fmtError (typeErrorDup k)))
      ∧ isJobErrorString (handler okOracle
          { input := some { audio_base_64 := some "AAAA",
                            transcribe_options := [("language", "en")] } }).1 = true
      ∧ ∀ keys, Effect.transcribeCall keys
          ∉ (handler okOracle
              { input := some { audio_base_64 := some "AAAA",
                                transcribe_options := [("language", "en")] } }).2 :=
  reserved_transcribe_keys_error okOracle
    { audio_base_64 := some "AAAA", transcribe_options := [("language", "en")] }
    [1, 2, 3] 7 rfl rfl rfl rfl (by decide)

end WhisperxHandler
